import Mathlib

/-!
Verification of the fit-parser repository against its specification.

The definitions below are shallow embeddings of the Rust sources:
bytes are `Nat` values below 256, byte buffers are `List Nat`, Rust
panics and failed `assert!`s are modelled as `Option.none`, and machine
integer operations are written with explicit masks (`% 2^w`, `Nat.land`).
-/

set_option maxRecDepth 100000

namespace FitParser

/-- The 16-entry nibble table `CRC_TABLE` of `src/parser/src/fit_header.rs`
(identical copy in `src/parser/src/main.rs`). -/
def CRC_TABLE : List Nat :=
  [0x0000, 0xCC01, 0xD801, 0x1400, 0xF001, 0x3C00, 0x2800, 0xE401,
   0xA001, 0x6C00, 0x7800, 0xB401, 0x5000, 0x9C01, 0x8801, 0x4400]

/-- One loop iteration of `fit_crc`: two nibble updates per input byte,
low nibble first.  `crc & 0xF` is `crc % 16`, `(crc >> 4) & 0x0FFF` is
`(crc / 16) % 0x1000`, `(byte >> 4) & 0xF` is `(byte / 16) % 16`. -/
def fitCrcByte (crc byte : Nat) : Nat :=
  let tmp := CRC_TABLE.getD (crc % 16) 0
  let crc := Nat.xor (Nat.xor ((crc / 16) % 0x1000) tmp) (CRC_TABLE.getD (byte % 16) 0)
  let tmp := CRC_TABLE.getD (crc % 16) 0
  Nat.xor (Nat.xor ((crc / 16) % 0x1000) tmp) (CRC_TABLE.getD ((byte / 16) % 16) 0)

/-- `fit_crc(data, crc_in)` from `src/parser/src/fit_header.rs` lines 82-95:
a left fold of the per-byte update over the input. -/
def fit_crc (data : List Nat) (crc_in : Nat) : Nat :=
  data.foldl fitCrcByte crc_in

/-! ## Record-header classifier (`src/parser/src/fit_records.rs` lines 280-302,
identical copy in `src/parser/src/main.rs` lines 292-314) -/

inductive Endianness where
  | BigEndian
  | LittleEndian
deriving DecidableEq, Repr

structure NormalDefinitionHeader where
  contains_extended_definitions : Bool
  local_message_type : Nat
deriving DecidableEq, Repr

structure NormalDataHeader where
  local_message_type : Nat
deriving DecidableEq, Repr

structure CompressedTimestampHeader where
  local_message_type : Nat
  time_offset : Nat
deriving DecidableEq, Repr

inductive RecordHeader where
  | NormalDefinition (h : NormalDefinitionHeader)
  | NormalData (h : NormalDataHeader)
  | CompressedTimestamp (h : CompressedTimestampHeader)
deriving DecidableEq, Repr

inductive RecordMessageType where
  | Definition
  | Data
  | DataCompressedTimestamp
deriving DecidableEq, Repr

/-- `RecordHeader::get_record_message_type`. -/
def RecordHeader.get_record_message_type : RecordHeader → RecordMessageType
  | .NormalDefinition _ => .Definition
  | .NormalData _ => .Data
  | .CompressedTimestamp _ => .DataCompressedTimestamp

/-- `parse_record_header(b)`.  Note that in the compressed-timestamp branch
the source stores `b & 0b01100000` without shifting it down. -/
def parse_record_header (b : Nat) : RecordHeader :=
  if Nat.land b 0b10000000 > 0 then
    RecordHeader.CompressedTimestamp
      { local_message_type := Nat.land b 0b01100000
        time_offset := Nat.land b 0b00011111 }
  else if Nat.land b 0b01000000 > 0 then
    RecordHeader.NormalDefinition
      { contains_extended_definitions := Nat.land b 0b00100000 > 0
        local_message_type := Nat.land b 0b00001111 }
  else
    RecordHeader.NormalData { local_message_type := Nat.land b 0b00001111 }

/-- `LittleEndian::read_u16`. -/
def readU16LE (b0 b1 : Nat) : Nat := b0 + 256 * b1

/-- `BigEndian::read_u16`. -/
def readU16BE (b0 b1 : Nat) : Nat := 256 * b0 + b1

/-- `LittleEndian::read_u32`. -/
def readU32LE (b0 b1 b2 b3 : Nat) : Nat :=
  b0 + 256 * b1 + 65536 * b2 + 16777216 * b3

/-! ## Base types and the definition-record decoder
(`src/parser/src/fit_records.rs` lines 22-184 and 340-408, identical copies
in `src/parser/src/main.rs`). -/

inductive BaseType where
  | Enum | Sint8 | Uint8 | Sint16 | Uint16 | Sint32 | Uint32 | String
  | Float32 | Float64 | Uint8z | Uint16z | Uint32z | Byte | Sint64 | Uint64 | Uint64z
deriving DecidableEq, Repr

/-- `BaseType::try_from` (derived `TryFromPrimitive` over the `#[repr(u8)]`
discriminants): the 17 published wire codes. -/
def BaseType.try_from : Nat → Option BaseType
  | 0x00 => some .Enum
  | 0x01 => some .Sint8
  | 0x02 => some .Uint8
  | 0x83 => some .Sint16
  | 0x84 => some .Uint16
  | 0x85 => some .Sint32
  | 0x86 => some .Uint32
  | 0x07 => some .String
  | 0x88 => some .Float32
  | 0x89 => some .Float64
  | 0x0A => some .Uint8z
  | 0x8B => some .Uint16z
  | 0x8C => some .Uint32z
  | 0x0D => some .Byte
  | 0x8E => some .Sint64
  | 0x8F => some .Uint64
  | 0x90 => some .Uint64z
  | _ => none

structure BaseTypeInfo where
  base_type : BaseType
  endian_ability : Bool
  base_type_field : Nat
  type_name : String
  size : Nat
  invalid_value : Nat
deriving DecidableEq, Repr

/-- The `match` table inside `get_base_type_info`. -/
def BaseType.info : BaseType → BaseTypeInfo
  | .Enum => ⟨.Enum, false, 0x00, "enum", 1, 0xFF⟩
  | .Sint8 => ⟨.Sint8, false, 0x01, "sint8", 1, 0x7F⟩
  | .Uint8 => ⟨.Uint8, false, 0x02, "uint8", 1, 0xFF⟩
  | .Sint16 => ⟨.Sint16, true, 0x83, "sint16", 2, 0x7FFF⟩
  | .Uint16 => ⟨.Uint16, true, 0x84, "uint16", 2, 0xFFFF⟩
  | .Sint32 => ⟨.Sint32, true, 0x85, "sint32", 4, 0x7FFFFFFF⟩
  | .Uint32 => ⟨.Uint32, true, 0x86, "uint32", 4, 0xFFFFFFFF⟩
  | .String => ⟨.String, false, 0x07, "string", 1, 0x00⟩
  | .Float32 => ⟨.Float32, true, 0x88, "float32", 4, 0xFFFFFFFF⟩
  | .Float64 => ⟨.Float64, true, 0x89, "float64", 8, 0xFFFFFFFFFFFFFFFF⟩
  | .Uint8z => ⟨.Uint8z, false, 0x0A, "uint8z", 1, 0x00⟩
  | .Uint16z => ⟨.Uint16z, true, 0x8B, "uint16z", 2, 0x0000⟩
  | .Uint32z => ⟨.Uint32z, true, 0x8C, "uint32z", 4, 0x00000000⟩
  | .Byte => ⟨.Byte, false, 0x0D, "byte", 1, 0xFF⟩
  | .Sint64 => ⟨.Sint64, true, 0x8E, "sint64", 8, 0x7FFFFFFFFFFFFFFF⟩
  | .Uint64 => ⟨.Uint64, true, 0x8F, "uint64", 8, 0xFFFFFFFFFFFFFFFF⟩
  | .Uint64z => ⟨.Uint64z, true, 0x90, "uint64z", 8, 0x0000000000000000⟩

/-- `get_base_type_info(number)`: `BaseType::try_from(number).unwrap()`
(the unwrap panic on an unknown code is `none`) followed by the info table. -/
def get_base_type_info (number : Nat) : Option BaseTypeInfo :=
  (BaseType.try_from number).map BaseType.info

structure FieldDefinition where
  field_definition_number : Nat
  field_size : Nat
  base_type : BaseTypeInfo
deriving DecidableEq, Repr

structure DeveloperFieldDefinition where
  field_number : Nat
  field_size : Nat
  developer_data_index : Nat
deriving DecidableEq, Repr

structure DefinitionRecord where
  header : NormalDefinitionHeader
  architecture : Endianness
  global_message_number : Nat
  field_definitions : List FieldDefinition
  developer_field_definitions : List DeveloperFieldDefinition
deriving DecidableEq, Repr

/-- The `for _ in 0..number_of_fields` loop of `parse_definition_record`:
reads `(definition_number, size, base_type_code)` triples, resolving each
base type (panic on an unknown code) and panicking when the declared size
is not a multiple of the base type size.  Returns the fields accumulated
so far together with the final cursor. -/
def parseFieldDefinitions (data : List Nat) :
    Nat → Nat → List FieldDefinition → Option (List FieldDefinition × Nat)
  | idx, 0, acc => some (acc, idx)
  | idx, n + 1, acc => do
    let field_definition_number ← data.get? idx
    let size ← data.get? (idx + 1)
    let base_type_number ← data.get? (idx + 2)
    let base_type ← get_base_type_info base_type_number
    if size % base_type.size = 0 then
      parseFieldDefinitions data (idx + 3) n
        (acc ++ [{ field_definition_number, field_size := size, base_type }])
    else
      none

/-- The developer-field loop of `parse_definition_record`: reads
`(field_number, size, developer_data_index)` triples with no validation. -/
def parseDevFieldDefinitions (data : List Nat) :
    Nat → Nat → List DeveloperFieldDefinition → Option (List DeveloperFieldDefinition × Nat)
  | idx, 0, acc => some (acc, idx)
  | idx, n + 1, acc => do
    let field_number ← data.get? idx
    let size ← data.get? (idx + 1)
    let developer_data_index ← data.get? (idx + 2)
    parseDevFieldDefinitions data (idx + 3) n
      (acc ++ [{ field_number, field_size := size, developer_data_index }])

/-- The `if header.contains_extended_definitions` block of
`parse_definition_record`: with the flag set it reads the developer-field
count and the developer-field triples; without it the developer-field list
stays empty and the cursor is unchanged. -/
def parseDevBlock (data : List Nat) (ext : Bool) (idx : Nat) :
    Option (List DeveloperFieldDefinition × Nat) :=
  match ext with
  | true => do
    let number_of_developer_fields ← data.get? idx
    parseDevFieldDefinitions data (idx + 1) number_of_developer_fields []
  | false => some ([], idx)

/-- `parse_definition_record(data, header, data_start_offset)`: skips the
reserved byte, reads the architecture byte (non-zero is big-endian), the
`global_message_number` u16 in the declared endianness, the field count and
the field triples, and — when the header carries the developer-data flag —
the developer-field count and triples.  Returns the record and the new
cursor; every Rust panic is `none`. -/
def parse_definition_record (data : List Nat) (header : NormalDefinitionHeader)
    (data_start_offset : Nat) : Option (DefinitionRecord × Nat) := do
  let archByte ← data.get? (data_start_offset + 1)
  let g0 ← data.get? (data_start_offset + 2)
  let g1 ← data.get? (data_start_offset + 3)
  let number_of_fields ← data.get? (data_start_offset + 4)
  let fres ← parseFieldDefinitions data (data_start_offset + 5) number_of_fields []
  let dres ← parseDevBlock data header.contains_extended_definitions fres.2
  some ({ header,
          architecture := if archByte > 0 then .BigEndian else .LittleEndian,
          global_message_number :=
            if archByte > 0 then readU16BE g0 g1 else readU16LE g0 g1,
          field_definitions := fres.1,
          developer_field_definitions := dres.1 }, dres.2)

/-- The S4 definition body `00 01 0A 0B 02 01 01 02 02 04 84`. -/
def s4_body : List Nat :=
  [0x00, 0x01, 0x0A, 0x0B, 0x02, 0x01, 0x01, 0x02, 0x02, 0x04, 0x84]

/-- The S6 definition body with one field triple `01 01 84`
(size 1, base type uint16). -/
def s6_body : List Nat :=
  [0x00, 0x01, 0x0A, 0x0B, 0x01, 0x01, 0x01, 0x84]

/-- A definition body with one field triple `01 00 84`
(size 0, base type uint16). -/
def c6_zero_size_body : List Nat :=
  [0x00, 0x01, 0x0A, 0x0B, 0x01, 0x01, 0x00, 0x84]

/-! ## File-header decoder (`src/parser/src/fit_header.rs` lines 28-75,
identical copy in `src/parser/src/main.rs` lines 540-596).

Rust panics (failed `assert!`, out-of-bounds indexing, `unwrap` of a failed
UTF-8 conversion) are modelled as `none`.  The `data_type` string is
represented by its four raw bytes together with a UTF-8 validity check:
`String::from_utf8` succeeds exactly on valid UTF-8 and is injective on the
underlying bytes. -/

/-- A UTF-8 continuation byte: `0x80..0xBF`. -/
def utf8ContByte (b : Nat) : Bool := 0x80 ≤ b && b ≤ 0xBF

/-- Validity of a byte sequence as UTF-8 (the check performed by
`String::from_utf8`), following the well-formed byte-sequence table of the
Unicode standard. -/
def utf8Valid : List Nat → Bool
  | [] => true
  | b :: rest =>
    if b ≤ 0x7F then utf8Valid rest
    else if 0xC2 ≤ b && b ≤ 0xDF then
      match rest with
      | c1 :: r => utf8ContByte c1 && utf8Valid r
      | [] => false
    else if b = 0xE0 then
      match rest with
      | c1 :: c2 :: r => (0xA0 ≤ c1 && c1 ≤ 0xBF) && utf8ContByte c2 && utf8Valid r
      | _ => false
    else if (0xE1 ≤ b && b ≤ 0xEC) || b = 0xEE || b = 0xEF then
      match rest with
      | c1 :: c2 :: r => utf8ContByte c1 && utf8ContByte c2 && utf8Valid r
      | _ => false
    else if b = 0xED then
      match rest with
      | c1 :: c2 :: r => (0x80 ≤ c1 && c1 ≤ 0x9F) && utf8ContByte c2 && utf8Valid r
      | _ => false
    else if b = 0xF0 then
      match rest with
      | c1 :: c2 :: c3 :: r =>
        (0x90 ≤ c1 && c1 ≤ 0xBF) && utf8ContByte c2 && utf8ContByte c3 && utf8Valid r
      | _ => false
    else if 0xF1 ≤ b && b ≤ 0xF3 then
      match rest with
      | c1 :: c2 :: c3 :: r =>
        utf8ContByte c1 && utf8ContByte c2 && utf8ContByte c3 && utf8Valid r
      | _ => false
    else if b = 0xF4 then
      match rest with
      | c1 :: c2 :: c3 :: r =>
        (0x80 ≤ c1 && c1 ≤ 0x8F) && utf8ContByte c2 && utf8ContByte c3 && utf8Valid r
      | _ => false
    else false

/-- `FitFileHeader` of `src/parser/src/fit_header.rs`, with `data_type` as
its four raw bytes. -/
structure FitFileHeader where
  header_size : Nat
  protocol_version : Nat
  profile_version : Nat
  data_size : Nat
  data_type : List Nat
  crc : Option Nat
deriving DecidableEq, Repr

/-- The `header_crc` block of `FitFileHeader::from` (lines 55-64): when
`header_size > CRC_LSB (12) && header_size >= CRC_MSB (13)` the stored
little-endian u16 at bytes 12-13 is read, compared against the CRC of the
first 12 bytes with seed 0 (`assert_eq!`, modelled as `none` on mismatch),
and recorded; otherwise the field stays `None`. -/
def headerCrcField (fit_data : List Nat) (header_size : Nat) : Option (Option Nat) :=
  if 12 < header_size ∧ 13 ≤ header_size then
    match fit_data.get? 12, fit_data.get? 13 with
    | some c0, some c1 =>
      if readU16LE c0 c1 = fit_crc (fit_data.take 12) 0 then
        some (some (readU16LE c0 c1))
      else none
    | _, _ => none
  else some none

/-- `FitFileHeader::from(fit_data)`.  Reads byte 0 as `header_size`,
asserts `header_size <= fit_data.len()`, reads `protocol_version`,
`profile_version` (LE u16 at 2-3), `data_size` (LE u32 at 4-7), the
`data_type` bytes 8-11 (which must form valid UTF-8), and the optional
header CRC.  Every panic of the Rust code is `none`. -/
def FitFileHeader.fromBytes (fit_data : List Nat) : Option FitFileHeader := do
  let header_size ← fit_data.get? 0
  if header_size ≤ fit_data.length then
    let protocol_version ← fit_data.get? 1
    let pv0 ← fit_data.get? 2
    let pv1 ← fit_data.get? 3
    let ds0 ← fit_data.get? 4
    let ds1 ← fit_data.get? 5
    let ds2 ← fit_data.get? 6
    let ds3 ← fit_data.get? 7
    if 12 ≤ fit_data.length then
      if utf8Valid ((fit_data.drop 8).take 4) then
        let crc ← headerCrcField fit_data header_size
        some { header_size, protocol_version,
               profile_version := readU16LE pv0 pv1,
               data_size := readU32LE ds0 ds1 ds2 ds3,
               data_type := (fit_data.drop 8).take 4, crc }
      else none
    else none
  else none

/-- A 14-byte buffer whose first byte declares `header_size = 13`; bytes
12-13 hold the little-endian CRC (seed 0) of the first 12 bytes. -/
def c4_buffer : List Nat :=
  [13, 3, 0x0B, 0x0A, 0x0D, 0x0C, 0x0B, 0x0A, 0x2E, 0x46, 0x49, 0x54, 0xA7, 0xA3]

/-- The header the parser returns on `c4_buffer`. -/
def c4_header : FitFileHeader :=
  { header_size := 13, protocol_version := 3, profile_version := 0x0A0B,
    data_size := 0x0A0B0C0D, data_type := [0x2E, 0x46, 0x49, 0x54],
    crc := some 0xA3A7 }

/-- A 12-byte buffer whose magic bytes 8-11 spell `ABCD` instead of `.FIT`. -/
def c5_buffer : List Nat :=
  [12, 3, 0x0B, 0x0A, 0x0D, 0x0C, 0x0B, 0x0A, 0x41, 0x42, 0x43, 0x44]

/-- The header the parser returns on `c5_buffer`. -/
def c5_header : FitFileHeader :=
  { header_size := 12, protocol_version := 3, profile_version := 0x0A0B,
    data_size := 0x0A0B0C0D, data_type := [0x41, 0x42, 0x43, 0x44],
    crc := none }

/-! ## Profile schema loader and emitter (`src/fit_profile_typegen/src/lib.rs`).

Rows are the CSV data records (the `csv::Reader` consumes the header line),
each a list of column strings.  Rust panics and `?`-propagated errors are
`none`.  The `f32` parsing of scale entries is outside the embedding
(floating point): entries are kept as trimmed strings, which is all the
loader itself observes (it only checks the entry count against the
component count and stores the values). -/

structure FitRefField where
  name : String
  value : String
deriving DecidableEq, Repr

inductive FitMessageArrayType where
  | NotArray
  | FixedSizeArray (n : Nat)
  | VariableSizeArray
deriving DecidableEq, Repr

structure FitMessageField where
  category : String
  definition_number : Nat
  name : String
  field_type : String
  array : FitMessageArrayType
  scale : List String
  offset : Int
  components : List String
  units : List String
  bits : List Nat
  accumulate : List Nat
  ref_fields : List FitRefField
  comment : Option String
  example_value : Option Nat
deriving DecidableEq, Repr

structure FitMessage where
  name : String
  comment : Option String
  fields : List FitMessageField
deriving DecidableEq, Repr

/-! String primitives are modelled over `List Char` (`String.data`) so that
every definition evaluates inside the kernel; `str::trim` is modelled on
ASCII whitespace. -/

/-- ASCII whitespace, for `str::trim`. -/
def isWsChar (c : Char) : Bool :=
  c = ' ' || c = '\t' || c = '\n' || c = '\r'

/-- `str::trim`. -/
def trimChars (cs : List Char) : List Char :=
  ((cs.dropWhile isWsChar).reverse.dropWhile isWsChar).reverse

/-- `str::to_lowercase` (ASCII). -/
def lowerChars (cs : List Char) : List Char := cs.map Char.toLower

/-- `str::starts_with`. -/
def isPrefixChars : List Char → List Char → Bool
  | [], _ => true
  | _ :: _, [] => false
  | p :: ps, c :: cs => p = c && isPrefixChars ps cs

/-- `str::ends_with`. -/
def isSuffixChars (p cs : List Char) : Bool := isPrefixChars p.reverse cs.reverse

def splitCommaAux : List Char → List Char → List (List Char)
  | [], acc => [acc.reverse]
  | c :: cs, acc =>
    if c = ',' then acc.reverse :: splitCommaAux cs []
    else splitCommaAux cs (c :: acc)

/-- `str::split(',')`: the comma-separated parts, empty parts preserved. -/
def splitComma (cs : List Char) : List (List Char) := splitCommaAux cs []

def decDigitsToNat? : List Char → Nat → Option Nat
  | [], acc => some acc
  | c :: cs, acc =>
    if c.isDigit then decDigitsToNat? cs (10 * acc + (c.toNat - 48)) else none

/-- A non-empty run of decimal digits. -/
def parseDecNat? (cs : List Char) : Option Nat :=
  match cs with
  | [] => none
  | _ => decDigitsToNat? cs 0

/-- Unsigned `FromStr`: optional `+` sign, then decimal digits. -/
def parseUnsigned? (cs : List Char) : Option Nat :=
  match cs with
  | c :: rest => if c = '+' then parseDecNat? rest else parseDecNat? cs
  | [] => none

/-- Signed `FromStr`: optional `+` or `-` sign, then decimal digits. -/
def parseSigned? (cs : List Char) : Option Int :=
  match cs with
  | c :: rest =>
    if c = '+' then (parseDecNat? rest).map Int.ofNat
    else if c = '-' then (parseDecNat? rest).map (fun n => -(n : Int))
    else (parseDecNat? cs).map Int.ofNat
  | [] => none

/-- `parse::<u8>`: value at most 255 (overflow is an error). -/
def parseU8 (cs : List Char) : Option Nat :=
  match parseUnsigned? cs with
  | some v => if v ≤ 255 then some v else none
  | none => none

/-- `parse::<u32>`: value below `2^32` (overflow is an error). -/
def parseU32 (cs : List Char) : Option Nat :=
  match parseUnsigned? cs with
  | some v => if v < 4294967296 then some v else none
  | none => none

/-- `parse::<usize>`: value below `2^64` (overflow is an error). -/
def parseUsize (cs : List Char) : Option Nat :=
  match parseUnsigned? cs with
  | some v => if v < 18446744073709551616 then some v else none
  | none => none

/-- `parse_fit_message_array`: empty means not an array, `[N]`
(case-insensitive) a variable-size array, `[k]` a fixed-size array of the
parsed size, anything else panics. -/
def parse_fit_message_array (array_def : String) : Option FitMessageArrayType :=
  let s := trimChars array_def.data
  if s.isEmpty then some .NotArray
  else if lowerChars s = ['[', 'n', ']'] then some .VariableSizeArray
  else if isPrefixChars ['['] s && isSuffixChars [']'] s then
    match parseUsize (s.drop 1).dropLast with
    | some k => some (.FixedSizeArray k)
    | none => none
  else none

/-- `parse_comma_delimited_string_list`: empty gives `[]`, otherwise the
comma-split parts (no trimming). -/
def parse_comma_delimited_string_list (input : String) : List String :=
  if input.data.isEmpty then [] else (splitComma input.data).map String.mk

/-- `parse_fit_message_scale_record`: empty gives the default scale
(`vec![1.0]`, written `["1"]` here); otherwise the comma-split entries,
trimmed (each must parse as `f32`, not modelled). -/
def parse_fit_message_scale_record (s : String) : List String :=
  if s.data.isEmpty then ["1"]
  else (splitComma s.data).map (fun t => String.mk (trimChars t))

/-- `parse_fit_message_offset_record`: empty gives 0, otherwise a signed
16-bit integer (panic on failure). -/
def parse_fit_message_offset_record (s : String) : Option Int :=
  if s.data.isEmpty then some 0
  else
    match parseSigned? s.data with
    | some v => if -32768 ≤ v ∧ v ≤ 32767 then some v else none
    | none => none

/-- `parse_fit_message_bits`: empty gives `[]`, otherwise the comma-split
entries trimmed and parsed as u8 (panic on failure). -/
def parse_fit_message_bits (s : String) : Option (List Nat) :=
  if s.data.isEmpty then some []
  else (splitComma s.data).mapM (fun t => parseU8 (trimChars t))

/-- `parse_fit_message_accumulate`: same shape as the bits column. -/
def parse_fit_message_accumulate (input : String) : Option (List Nat) :=
  if input.data.isEmpty then some []
  else (splitComma input.data).mapM (fun t => parseU8 (trimChars t))

/-- `validate_components_with_scale` (an `assert!`). -/
def validate_components_with_scale (components scale : List String)
    (default_scale_used : Bool) : Bool :=
  components.length == scale.length || default_scale_used ||
    (components.isEmpty && scale.length == 1)

/-- `validate_components_with_bits` (an `assert!`). -/
def validate_components_with_bits (components : List String) (bits : List Nat) : Bool :=
  components.length == bits.length || (components.isEmpty && bits.length == 1)

/-- `validate_components_with_accumulate` (an `assert!`). -/
def validate_components_with_accumulate (components : List String)
    (accumulate : List Nat) : Bool :=
  components.length == accumulate.length || accumulate.isEmpty

/-- The loop state of `read_messages`: the output list, the
`first_message` flag, the message under construction and the current
category. -/
structure ReadMessagesState where
  fit_messages : List FitMessage
  first_message : Bool
  curr_message : FitMessage
  curr_category : String
deriving DecidableEq, Repr

/-- The initial `curr_message` placeholder of `read_messages`. -/
def emptyFitMessage : FitMessage := { name := "", comment := none, fields := [] }

def read_messages_init : ReadMessagesState :=
  { fit_messages := [], first_message := true,
    curr_message := emptyFitMessage, curr_category := "" }

/-- One iteration of the `read_messages` row loop.  The row length is
asserted to be 16.  A category row (columns 0-2 empty, column 3 non-empty)
updates `curr_category` and then falls through.  A message-start row
(column 0 non-empty) flushes `curr_message` — note the `first_message`
branch pushes it an extra time before the unconditional push — and begins
a new message.  A row with empty column 1 is skipped.  Any other row is a
field row: its columns are parsed and validated and the field appended to
the message under construction. -/
def read_messages_step (st : ReadMessagesState) (rec : List String) :
    Option ReadMessagesState :=
  if rec.length = 16 then
    let curr_category :=
      if (rec.getD 0 "").data.isEmpty && (rec.getD 1 "").data.isEmpty &&
          (rec.getD 2 "").data.isEmpty && !(rec.getD 3 "").data.isEmpty then
        rec.getD 3 ""
      else st.curr_category
    if !(rec.getD 0 "").data.isEmpty then
      some { fit_messages :=
               (if st.first_message then st.fit_messages ++ [st.curr_message]
                else st.fit_messages) ++ [st.curr_message],
             first_message := false,
             curr_message :=
               { name := rec.getD 0 "",
                 comment :=
                   if (rec.getD 13 "").data.isEmpty then none
                   else some (rec.getD 13 ""),
                 fields := [] },
             curr_category }
    else if (rec.getD 1 "").data.isEmpty then
      some { st with curr_category }
    else do
      let definition_number ← parseU8 (rec.getD 1 "").data
      let array ← parse_fit_message_array (rec.getD 4 "")
      let components := parse_comma_delimited_string_list (rec.getD 5 "")
      let scale := parse_fit_message_scale_record (rec.getD 6 "")
      let offset ← parse_fit_message_offset_record (rec.getD 7 "")
      let units := parse_comma_delimited_string_list (rec.getD 8 "")
      let bits ← parse_fit_message_bits (rec.getD 9 "")
      let accumulate ← parse_fit_message_accumulate (rec.getD 10 "")
      if validate_components_with_scale components scale
            (rec.getD 6 "").data.isEmpty &&
          validate_components_with_bits components bits &&
          validate_components_with_accumulate components accumulate then
        let ref_field_names := parse_comma_delimited_string_list (rec.getD 11 "")
        let ref_field_values := parse_comma_delimited_string_list (rec.getD 12 "")
        if ref_field_names.length = ref_field_values.length then
          let example_value ←
            if (rec.getD 15 "").data.isEmpty then some none
            else (parseU8 (rec.getD 15 "").data).map some
          some { st with
                 curr_category,
                 curr_message :=
                   { st.curr_message with
                     fields := st.curr_message.fields ++
                       [{ category := curr_category, definition_number,
                          name := rec.getD 2 "", field_type := rec.getD 3 "",
                          array, scale, offset, components, units, bits, accumulate,
                          ref_fields :=
                            (ref_field_names.zip ref_field_values).map
                              (fun p => FitRefField.mk p.1 p.2),
                          comment :=
                            if (rec.getD 13 "").data.isEmpty then none
                            else some (rec.getD 13 ""),
                          example_value }] } }
        else none
      else none
  else none

/-- `read_messages`: folds the row loop over the records and appends the
final message under construction. -/
def read_messages (rows : List (List String)) : Option (List FitMessage) := do
  let st ← rows.foldlM read_messages_step read_messages_init
  some (st.fit_messages ++ [st.curr_message])

structure FitTypeValue where
  value_name : String
  value : Nat
  comment : String
deriving DecidableEq, Repr

structure FitType where
  type_name : String
  base_type : String
  values : List FitTypeValue
deriving DecidableEq, Repr

/-- A hexadecimal digit of the lowercased value string. -/
def hexDigit? (c : Char) : Option Nat :=
  if c.isDigit then some (c.toNat - 48)
  else if 'a' ≤ c && c ≤ 'f' then some (c.toNat - 87)
  else none

def parseHexDigits : List Char → Nat → Option Nat
  | [], acc => some acc
  | c :: cs, acc => do
    let d ← hexDigit? c
    parseHexDigits cs (16 * acc + d)

/-- `u32::from_str_radix(s, 16)`: at least one digit, all digits
hexadecimal, value below `2^32`. -/
def parseHexU32 (cs : List Char) : Option Nat :=
  if cs.isEmpty then none
  else do
    let v ← parseHexDigits cs 0
    if v < 4294967296 then some v else none

/-- `trim_start_matches("0x")`: removes every repetition of the leading
`0x` prefix. -/
def trimStart0x : List Char → List Char
  | '0' :: 'x' :: rest => trimStart0x rest
  | cs => cs

/-- The value-parsing expression of `read_profile_types` (applied to the
trimmed value string): hexadecimal when the lowercased string starts with
`0x`, decimal otherwise. -/
def parseFitTypeValue (value_str : List Char) : Option Nat :=
  if isPrefixChars ['0', 'x'] (lowerChars value_str) then
    parseHexU32 (trimStart0x (lowerChars value_str))
  else
    parseU32 value_str

/-- The loop state of `read_profile_types`. -/
structure ReadProfileTypesState where
  fit_types : List FitType
  first_type : Bool
  curr_fit_type : FitType
deriving DecidableEq, Repr

/-- The initial `curr_fit_type` placeholder of `read_profile_types`. -/
def emptyFitType : FitType := { type_name := "", base_type := "", values := [] }

/-- One iteration of the `read_profile_types` row loop.  A type-start row
(column 0 non-empty) pushes the current type — the push guarded by
`!first_type` can never run, because `first_type` is only set to `false`
inside that same guard — and begins a new type from columns 0-1; any other
row appends a value from columns 2-4 (trimmed value string, decimal or
`0x`-prefixed hexadecimal) to the current type. -/
def read_profile_types_step (st : ReadProfileTypesState) (rec : List String) :
    Option ReadProfileTypesState :=
  if !(rec.getD 0 "").data.isEmpty then
    match rec.get? 1 with
    | some base_type =>
      some { fit_types :=
               (if !st.first_type then st.fit_types ++ [st.curr_fit_type]
                else st.fit_types) ++ [st.curr_fit_type],
             first_type := if !st.first_type then false else st.first_type,
             curr_fit_type :=
               { type_name := rec.getD 0 "", base_type, values := [] } }
    | none => none
  else
    match rec.get? 2, rec.get? 3, rec.get? 4 with
    | some value_name, some value_str, some comment => do
      let value ← parseFitTypeValue (trimChars value_str.data)
      some { st with
             curr_fit_type :=
               { st.curr_fit_type with
                 values := st.curr_fit_type.values ++
                   [{ value_name, value, comment }] } }
    | _, _, _ => none

/-- `read_profile_types`: folds the row loop over the records and appends
the final type under construction. -/
def read_profile_types (rows : List (List String)) : Option (List FitType) := do
  let st ← rows.foldlM read_profile_types_step
    { fit_types := [], first_type := true, curr_fit_type := emptyFitType }
  some (st.fit_types ++ [st.curr_fit_type])

/-- The deprecation test of `generate_enum_type_as_string`:
`comment.trim().to_lowercase().starts_with("deprecated")`. -/
def isDeprecatedComment (comment : String) : Bool :=
  isPrefixChars "deprecated".data (lowerChars (trimChars comment.data))

/-- The members emitted by `generate_enum_type_as_string`: none for a
non-enum type (the function returns the empty string), otherwise every
value whose comment does not mark it deprecated, in order.  The textual
rendering (UpperCamelCase variant names, ` = value`, trailing comment) is
not modelled; membership in this list is membership in the artifact. -/
def generate_enum_type_emitted_values (t : FitType) : List FitTypeValue :=
  if t.base_type != "enum" then []
  else t.values.filter (fun v => !(isDeprecatedComment v.comment))

/-- `fit_type_to_rust_type` (panic on any other FIT type). -/
def fit_type_to_rust_type (fit_type : String) : Option String :=
  if fit_type = "uint8" then some "u8"
  else if fit_type = "uint8z" then some "u8"
  else if fit_type = "uint16" then some "u16"
  else if fit_type = "uint16z" then some "u16"
  else if fit_type = "uint32" then some "u32"
  else if fit_type = "uint32z" then some "u32"
  else none

/-- The members emitted by `generate_fit_trait_as_string`: every value of
the type is emitted as a named constant — this function has no deprecated
filter.  The base type must map to a Rust integer type
(`fit_type_to_rust_type` panics otherwise) and every value name must be
non-empty (`chars().next().unwrap()`).  The textual rendering
(UPPER_SNAKE_CASE names, underscore prefix for a leading digit) is not
modelled; membership in this list is membership in the artifact. -/
def generate_fit_trait_emitted_values (t : FitType) : Option (List FitTypeValue) := do
  let _rust_type ← fit_type_to_rust_type t.base_type
  if t.values.all (fun v => !v.value_name.data.isEmpty) then some t.values else none

/-- A message catalog consisting of one message-start row. -/
def c8_row : List String :=
  ["file_id", "", "", "", "", "", "", "", "", "", "", "", "", "", "", ""]

/-- A type-catalog type-start row. -/
def c9_type_row : List String := ["battery_level", "uint8", "", "", ""]

/-- A type-catalog value row whose comment begins with "Deprecated". -/
def c9_value_row : List String := ["", "", "low", "1", "Deprecated, use level instead"]

/-- The non-enum type the two rows above load to. -/
def c9_trait_type : FitType :=
  { type_name := "battery_level", base_type := "uint8",
    values := [{ value_name := "low", value := 1,
                 comment := "Deprecated, use level instead" }] }

/-! ## Theorems -/

/-- C1: for all byte sequences `A` and `B`, the CRC of the concatenation
`A ++ B` with seed 0 equals the CRC of `B` seeded with the CRC of `A`:
`crc16(A ‖ B, 0) = crc16(B, crc16(A, 0))`. -/
theorem fit_crc_concat (A B : List Nat) :
    fit_crc (A ++ B) 0 = fit_crc B (fit_crc A 0) := by
  simp [fit_crc, List.foldl_append]

/-- C2: the record-header classifier is total on bytes 0..255 and partitions
them in exactly three classes: `b ≥ 0x80` is CompressedTimestamp,
`0x40 ≤ b < 0x80` is Definition, and `b < 0x40` is Data. -/
theorem parse_record_header_partition :
    ∀ b : Fin 256,
      (parse_record_header b.val).get_record_message_type =
        (if 0x80 ≤ b.val then RecordMessageType.DataCompressedTimestamp
         else if 0x40 ≤ b.val then RecordMessageType.Definition
         else RecordMessageType.Data) := by
  decide

/-- Decomposition of a successful header parse: the returned `header_size`
is byte 0, `data_type` is bytes 8-11 verbatim, and the `crc` field is
produced by `headerCrcField`. -/
theorem fromBytes_some_spec (data : List Nat) (h : FitFileHeader)
    (heq : FitFileHeader.fromBytes data = some h) :
    data.get? 0 = some h.header_size ∧
      h.data_type = (data.drop 8).take 4 ∧
      headerCrcField data h.header_size = some h.crc := by
  unfold FitFileHeader.fromBytes at heq
  simp only [Option.bind_eq_bind, Option.bind_eq_some] at heq
  obtain ⟨hs, hhs, heq⟩ := heq
  by_cases hlen : hs ≤ data.length
  · rw [if_pos hlen] at heq
    simp only [Option.bind_eq_some] at heq
    obtain ⟨b1, h1, b2, h2, b3, h3, b4, h4, b5, h5, b6, h6, b7, h7, heq⟩ := heq
    by_cases h12 : 12 ≤ data.length
    · rw [if_pos h12] at heq
      by_cases hutf : utf8Valid ((data.drop 8).take 4) = true
      · rw [if_pos hutf] at heq
        simp only [Option.bind_eq_some, Option.some.injEq] at heq
        obtain ⟨crcv, hcrc, heq⟩ := heq
        subst heq
        exact ⟨hhs, rfl, hcrc⟩
      · rw [if_neg hutf] at heq
        exact absurd heq (by simp)
    · rw [if_neg h12] at heq
      exact absurd heq (by simp)
  · rw [if_neg hlen] at heq
    exact absurd heq (by simp)

/-- A successful `headerCrcField` result is `some` exactly when
`header_size ≥ 13`. -/
theorem headerCrcField_isSome (d : List Nat) (hs : Nat) (c : Option Nat)
    (heq : headerCrcField d hs = some c) : c.isSome ↔ 13 ≤ hs := by
  unfold headerCrcField at heq
  split at heq
  case isTrue hc =>
    split at heq
    · split at heq
      · simp only [Option.some.injEq] at heq
        subst heq
        simp only [Option.isSome_some, true_iff]
        exact hc.2
      · exact absurd heq (by simp)
    · exact absurd heq (by simp)
  case isFalse hc =>
    simp only [Option.some.injEq] at heq
    subst heq
    simp only [Option.isSome_none, Bool.false_eq_true, false_iff]
    omega

/-- A successful `headerCrcField` value equals the CRC (seed 0) of the
first 12 bytes of the buffer. -/
theorem headerCrcField_val (d : List Nat) (hs : Nat) (c : Option Nat)
    (heq : headerCrcField d hs = some c) :
    ∀ v, c = some v → v = fit_crc (d.take 12) 0 := by
  unfold headerCrcField at heq
  split at heq
  · split at heq
    · split at heq
      case isTrue hstored =>
        simp only [Option.some.injEq] at heq
        subst heq
        intro v hv
        simp only [Option.some.injEq] at hv
        subst hv
        exact hstored
      case isFalse _ => exact absurd heq (by simp)
    · exact absurd heq (by simp)
  · simp only [Option.some.injEq] at heq
    subst heq
    intro v hv
    exact absurd hv (by simp)

/-- C3 (code bug): on byte `0xA0` (bit 7 set) the classifier returns
`local_message_type = 0x20`, the masked bits 5-6 left in place, whereas the
specified value `(0xA0 >> 5) & 0x03` is `1`; the code never shifts the
masked value down, so compressed-timestamp slots come out as 0/32/64/96
instead of 0..3. -/
theorem parse_record_header_compressed_unshifted :
    parse_record_header 0xA0 =
        RecordHeader.CompressedTimestamp { local_message_type := 0x20, time_offset := 0 } ∧
      Nat.land (Nat.shiftRight 0xA0 5) 0x03 = 1 := by
  decide

/-- The field loop advances the cursor by exactly 3 bytes per declared
field. -/
theorem parseFieldDefinitions_cursor (data : List Nat) :
    ∀ (n idx : Nat) (acc fs : List FieldDefinition) (j : Nat),
      parseFieldDefinitions data idx n acc = some (fs, j) → j = idx + 3 * n := by
  intro n
  induction n with
  | zero =>
    intro idx acc fs j heq
    simp only [parseFieldDefinitions, Option.some.injEq, Prod.mk.injEq] at heq
    omega
  | succ n ih =>
    intro idx acc fs j heq
    simp only [parseFieldDefinitions, Option.bind_eq_bind, Option.bind_eq_some] at heq
    obtain ⟨a, -, b, -, c, -, bt, -, heq⟩ := heq
    split at heq
    · have := ih (idx + 3) _ fs j heq
      omega
    · exact absurd heq (by simp)

/-- The developer-field loop advances the cursor by exactly 3 bytes per
declared developer field. -/
theorem parseDevFieldDefinitions_cursor (data : List Nat) :
    ∀ (n idx : Nat) (acc fs : List DeveloperFieldDefinition) (j : Nat),
      parseDevFieldDefinitions data idx n acc = some (fs, j) → j = idx + 3 * n := by
  intro n
  induction n with
  | zero =>
    intro idx acc fs j heq
    simp only [parseDevFieldDefinitions, Option.some.injEq, Prod.mk.injEq] at heq
    omega
  | succ n ih =>
    intro idx acc fs j heq
    simp only [parseDevFieldDefinitions, Option.bind_eq_bind, Option.bind_eq_some] at heq
    obtain ⟨a, -, b, -, c, -, heq⟩ := heq
    have := ih (idx + 3) _ fs j heq
    omega

/-- Every field produced by a successful field loop has a size that is a
multiple of its base type size (given the accumulator does). -/
theorem parseFieldDefinitions_sizes (data : List Nat) :
    ∀ (n idx : Nat) (acc fs : List FieldDefinition) (j : Nat),
      parseFieldDefinitions data idx n acc = some (fs, j) →
      (∀ f ∈ acc, f.field_size % f.base_type.size = 0) →
      ∀ f ∈ fs, f.field_size % f.base_type.size = 0 := by
  intro n
  induction n with
  | zero =>
    intro idx acc fs j heq hacc
    simp only [parseFieldDefinitions, Option.some.injEq, Prod.mk.injEq] at heq
    exact heq.1 ▸ hacc
  | succ n ih =>
    intro idx acc fs j heq hacc
    simp only [parseFieldDefinitions, Option.bind_eq_bind, Option.bind_eq_some] at heq
    obtain ⟨a, -, b, -, c, -, bt, -, heq⟩ := heq
    split at heq
    case isTrue hsz =>
      refine ih (idx + 3) _ fs j heq ?_
      intro f hf
      rcases List.mem_append.mp hf with hmem | hmem
      · exact hacc f hmem
      · rcases List.mem_singleton.mp hmem with rfl
        exact hsz
    case isFalse _ => exact absurd heq (by simp)

/-- With the developer flag set, a successful `parseDevBlock` read the
count byte at `idx` and ran the developer-field loop from `idx + 1`. -/
theorem parseDevBlock_true (data : List Nat) (idx : Nat)
    (dres : List DeveloperFieldDefinition × Nat)
    (heq : parseDevBlock data true idx = some dres) :
    ∃ m, data.get? idx = some m ∧
      parseDevFieldDefinitions data (idx + 1) m [] = some dres := by
  unfold parseDevBlock at heq
  simp only [Option.bind_eq_bind, Option.bind_eq_some] at heq
  exact heq

/-- Without the developer flag, `parseDevBlock` returns no developer
fields and leaves the cursor unchanged. -/
theorem parseDevBlock_false (data : List Nat) (idx : Nat)
    (dres : List DeveloperFieldDefinition × Nat)
    (heq : parseDevBlock data false idx = some dres) : dres = ([], idx) := by
  unfold parseDevBlock at heq
  simp only [Option.some.injEq] at heq
  exact heq.symm

/-- Decomposition of a successful definition-record parse into its field
and developer-field loop results. -/
theorem parse_definition_record_some (data : List Nat)
    (header : NormalDefinitionHeader) (off : Nat) (rec : DefinitionRecord)
    (idx : Nat) (heq : parse_definition_record data header off = some (rec, idx)) :
    ∃ n fres dres,
      data.get? (off + 4) = some n ∧
        parseFieldDefinitions data (off + 5) n [] = some fres ∧
        parseDevBlock data header.contains_extended_definitions fres.2 = some dres ∧
        rec.field_definitions = fres.1 ∧
        rec.developer_field_definitions = dres.1 ∧ idx = dres.2 := by
  unfold parse_definition_record at heq
  simp only [Option.bind_eq_bind, Option.bind_eq_some] at heq
  obtain ⟨arch, -, g0, -, g1, -, n, hn, fres, hf, dres, hd, heq⟩ := heq
  simp only [Option.some.injEq, Prod.mk.injEq] at heq
  obtain ⟨hrec, hidx⟩ := heq
  subst hrec
  exact ⟨n, fres, dres, hn, hf, hd, rfl, rfl, hidx.symm⟩

/-- C6 (counterexample): a definition body declaring a field with `size=0`
and base type uint16 is accepted — `0 % 2 == 0` — although 0 is not a
positive multiple of the 2-byte element size, so "size must be a positive
multiple" fails on the code. -/
theorem definition_record_accepts_zero_size :
    (parse_definition_record c6_zero_size_body ⟨false, 1⟩ 0).map
        (fun p =>
          (p.1.field_definitions.map fun f => (f.field_definition_number, f.field_size),
            p.2)) =
      some ([(1, 0)], 8) := by
  decide

/-- C6 (amended): the decoder fails when a field triple carries a base-type
code that is not one of the 17 published codes or a size that is not a
multiple (zero included) of that base type's element size: every field of a
successful parse satisfies `size % base_type.size = 0`, and the body with
field triple `01 01 84` (size 1, uint16) is rejected. -/
theorem definition_record_malformed (data : List Nat)
    (header : NormalDefinitionHeader) (off : Nat) (rec : DefinitionRecord)
    (idx : Nat) (heq : parse_definition_record data header off = some (rec, idx)) :
    (∀ f ∈ rec.field_definitions, f.field_size % f.base_type.size = 0) ∧
      parse_definition_record s6_body ⟨false, 1⟩ 0 = none := by
  obtain ⟨n, fres, -, -, hf, -, hfields, -⟩ :=
    parse_definition_record_some data header off rec idx heq
  refine ⟨?_, by decide⟩
  rw [hfields]
  exact parseFieldDefinitions_sizes data n (off + 5) [] fres.1 fres.2 hf (by simp)

/-- Witness for C6 (amended): instantiation at the concrete S4 body. -/
theorem definition_record_malformed_witness :
    (∀ f ∈ (DefinitionRecord.mk ⟨false, 1⟩ .BigEndian 0x0A0B
        [⟨1, 1, BaseType.info .Uint8⟩, ⟨2, 4, BaseType.info .Uint16⟩] []).field_definitions,
        f.field_size % f.base_type.size = 0) ∧
      parse_definition_record s6_body ⟨false, 1⟩ 0 = none :=
  definition_record_malformed s4_body ⟨false, 1⟩ 0 _ 11 (by decide)

/-- C7: decoding the S4 definition body `00 01 0A 0B 02 01 01 02 02 04 84`
after a Definition header without developer data yields big-endian
architecture, global message number `0x0A0B`, field layouts `(1,1,uint8)`
and `(2,4,uint16)`, no developer fields, and cursor 11. -/
theorem s4_definition_body_parse (lmt : Nat) :
    parse_definition_record s4_body ⟨false, lmt⟩ 0 =
      some ({ header := ⟨false, lmt⟩,
              architecture := .BigEndian,
              global_message_number := 0x0A0B,
              field_definitions :=
                [⟨1, 1, BaseType.info .Uint8⟩, ⟨2, 4, BaseType.info .Uint16⟩],
              developer_field_definitions := [] }, 11) := by
  rfl

/-- C10: whenever the definition-record decoder returns, the cursor moved
past exactly the declared structural bytes: `off + 5 + 3·n_fields` without
developer data, and `off + 6 + 3·n_fields + 3·n_dev_fields` with it, where
`n_fields` is the byte at `off + 4` and `n_dev_fields` the byte following
the field triples. -/
theorem parse_definition_record_cursor (data : List Nat)
    (header : NormalDefinitionHeader) (off : Nat) (rec : DefinitionRecord)
    (idx : Nat) (heq : parse_definition_record data header off = some (rec, idx)) :
    ∃ n, data.get? (off + 4) = some n ∧
      (header.contains_extended_definitions = true →
        ∃ m, data.get? (off + 5 + 3 * n) = some m ∧ idx = off + 6 + 3 * n + 3 * m) ∧
      (header.contains_extended_definitions = false → idx = off + 5 + 3 * n) := by
  obtain ⟨n, fres, dres, hn, hf, hd, -, -, rfl⟩ :=
    parse_definition_record_some data header off rec idx heq
  have hcur : fres.2 = off + 5 + 3 * n :=
    parseFieldDefinitions_cursor data n (off + 5) [] fres.1 fres.2 hf
  refine ⟨n, hn, fun htrue => ?_, fun hfalse => ?_⟩
  · rw [htrue] at hd
    obtain ⟨m, hm, hdev⟩ := parseDevBlock_true data fres.2 dres hd
    have hdcur : dres.2 = fres.2 + 1 + 3 * m :=
      parseDevFieldDefinitions_cursor data m (fres.2 + 1) [] dres.1 dres.2 hdev
    exact ⟨m, hcur ▸ hm, by omega⟩
  · rw [hfalse] at hd
    have := parseDevBlock_false data fres.2 dres hd
    rw [this]
    exact hcur

/-- Witness for C10: instantiation at the concrete S4 body. -/
theorem parse_definition_record_cursor_witness :
    ∃ n, s4_body.get? (0 + 4) = some n ∧
      ((NormalDefinitionHeader.mk false 1).contains_extended_definitions = true →
        ∃ m, s4_body.get? (0 + 5 + 3 * n) = some m ∧ 11 = 0 + 6 + 3 * n + 3 * m) ∧
      ((NormalDefinitionHeader.mk false 1).contains_extended_definitions = false →
        11 = 0 + 5 + 3 * n) :=
  parse_definition_record_cursor s4_body ⟨false, 1⟩ 0
    (DefinitionRecord.mk ⟨false, 1⟩ .BigEndian 0x0A0B
      [⟨1, 1, BaseType.info .Uint8⟩, ⟨2, 4, BaseType.info .Uint16⟩] [])
    11 (by decide)

/-- C4 (counterexample): on a 14-byte buffer declaring `header_size = 13`
whose bytes 12-13 hold the CRC of the first 12 bytes, the parser returns a
header with `header_size = 13` and the CRC field present — so presence of
`header_crc` is not equivalent to `header_size ≥ 14`. -/
theorem header_crc_present_at_13 :
    (FitFileHeader.fromBytes c4_buffer).map (fun h => (h.header_size, h.crc)) =
      some (13, some 0xA3A7) := by
  decide

/-- C4 (amended): for every buffer on which the file-header parser returns,
the `header_crc` field is present iff the parsed `header_size` is at least
13 (not 14), and when present the stored value equals the CRC (seed 0) of
the first 12 bytes of the buffer. -/
theorem header_crc_present_iff_13 (data : List Nat) (h : FitFileHeader)
    (heq : FitFileHeader.fromBytes data = some h) :
    (h.crc.isSome ↔ 13 ≤ h.header_size) ∧
      ∀ v, h.crc = some v → v = fit_crc (data.take 12) 0 := by
  obtain ⟨-, -, hc⟩ := fromBytes_some_spec data h heq
  exact ⟨headerCrcField_isSome _ _ _ hc, headerCrcField_val _ _ _ hc⟩

/-- Witness for C4 (amended): instantiation at the concrete `c4_buffer`. -/
theorem header_crc_present_iff_13_witness :
    (c4_header.crc.isSome ↔ 13 ≤ c4_header.header_size) ∧
      ∀ v, c4_header.crc = some v → v = fit_crc (c4_buffer.take 12) 0 :=
  header_crc_present_iff_13 c4_buffer c4_header (by decide)

/-- C5 (counterexample): a 12-byte buffer whose bytes 8-11 spell `ABCD`
is parsed successfully — the parser performs no `.FIT` magic check — and
the returned header carries the non-`.FIT` bytes. -/
theorem header_accepts_non_fit_magic :
    (FitFileHeader.fromBytes c5_buffer).map (fun h => h.data_type) =
        some [0x41, 0x42, 0x43, 0x44] ∧
      ([0x41, 0x42, 0x43, 0x44] : List Nat) ≠ [0x2E, 0x46, 0x49, 0x54] := by
  decide

/-- C5 (amended): the parser never compares `data_type` with `.FIT`; every
successfully returned header carries bytes 8-11 of the input verbatim as
its `data_type`, whether or not they equal `.FIT`. -/
theorem header_data_type_verbatim (data : List Nat) (h : FitFileHeader)
    (heq : FitFileHeader.fromBytes data = some h) :
    h.data_type = (data.drop 8).take 4 :=
  (fromBytes_some_spec data h heq).2.1

/-- Witness for C5 (amended): instantiation at the concrete `c5_buffer`. -/
theorem header_data_type_verbatim_witness :
    c5_header.data_type = (c5_buffer.drop 8).take 4 :=
  header_data_type_verbatim c5_buffer c5_header (by decide)

/-- C8 (code bug): on a catalog with a single message-start row the loader
returns the initial empty placeholder twice — the `first_message` branch
pushes `curr_message` and the unconditional push right after it pushes the
same value again — so the returned list is not duplicate-free, contrary to
the flush-exactly-once claim. -/
theorem read_messages_duplicates_first_flush :
    read_messages [c8_row] =
        some [emptyFitMessage, emptyFitMessage, FitMessage.mk "file_id" none []] ∧
      ¬ ([emptyFitMessage, emptyFitMessage,
          FitMessage.mk "file_id" none []] : List FitMessage).Nodup := by
  constructor
  · decide
  · decide

/-- C9 (counterexample): for the non-enum type `battery_level : uint8` with
a member whose comment begins with "Deprecated", the trait generator emits
the member anyway — the deprecated filter exists only in the enum
generator. -/
theorem trait_gen_emits_deprecated :
    generate_fit_trait_emitted_values c9_trait_type =
        some [FitTypeValue.mk "low" 1 "Deprecated, use level instead"] ∧
      isDeprecatedComment "Deprecated, use level instead" = true := by
  decide

/-- C9 (amended): a member whose comment begins with "deprecated"
(case-insensitive) contributes no member to the emitted artifact only for
enum types; for non-enum types the constant-group generator emits it like
any other member; in both cases the loader retains the member in its
intermediate model (shown on the concrete two-row catalog). -/
theorem deprecated_members_enum_only (t : FitType) (v : FitTypeValue)
    (hv : v ∈ t.values) (hdep : isDeprecatedComment v.comment = true) :
    v ∉ generate_enum_type_emitted_values t ∧
      (∀ l, generate_fit_trait_emitted_values t = some l → v ∈ l) ∧
      read_profile_types [c9_type_row, c9_value_row] =
        some [emptyFitType, c9_trait_type] := by
  refine ⟨?_, ?_, by decide⟩
  · unfold generate_enum_type_emitted_values
    split
    · simp
    · intro hmem
      have h2 := (List.mem_filter.mp hmem).2
      rw [hdep] at h2
      simp at h2
  · intro l hl
    unfold generate_fit_trait_emitted_values at hl
    simp only [Option.bind_eq_bind, Option.bind_eq_some] at hl
    obtain ⟨rt, -, hl⟩ := hl
    split at hl
    · simp only [Option.some.injEq] at hl
      subst hl
      exact hv
    · exact absurd hl (by simp)

/-- Witness for C9 (amended): instantiation at the concrete deprecated
member of `c9_trait_type`. -/
theorem deprecated_members_enum_only_witness :
    (FitTypeValue.mk "low" 1 "Deprecated, use level instead") ∉
        generate_enum_type_emitted_values c9_trait_type ∧
      (∀ l, generate_fit_trait_emitted_values c9_trait_type = some l →
        (FitTypeValue.mk "low" 1 "Deprecated, use level instead") ∈ l) ∧
      read_profile_types [c9_type_row, c9_value_row] =
        some [emptyFitType, c9_trait_type] :=
  deprecated_members_enum_only c9_trait_type
    (FitTypeValue.mk "low" 1 "Deprecated, use level instead")
    (by decide) (by decide)

end FitParser
